import Mathlib

/-!
Verification of the ChittyApps bundle exporter
(`scripts/export_bundles.py`): a shallow embedding of its identifier
resolver, property flattener, paginated fetcher, per-database exporter
and manifest construction, with theorems checking the specified
behaviour.

Modelling conventions:
* Python/JSON values (Notion property payloads) are the inductive
  `JVal`; Python dicts become association lists looked up by key
  (Python dicts have unique keys, so first-match lookup is faithful).
* `str(x)` is `pyStr`; `repr` of lists/dicts is `pyRepr` (string
  escaping inside `repr` is not modelled; no theorem depends on it).
* Code paths where the Python would raise (e.g. `.get` on a non-dict,
  joining non-string values) return a default here; no claim exercises
  an input reaching such a path.
* Filesystem and network effects are reified as data in the results
  (`csvWrite`, `queries`, `dirsCreated`), so "writes nothing" is
  "this list is empty".
-/

/-- A JSON-like value as handled by the Python code: `None`, booleans,
integers, strings, lists and dicts.  (Floats are not modelled; no claim
involves float formatting.) -/
inductive JVal where
  | jnull : JVal
  | jbool : Bool → JVal
  | jnum : Int → JVal
  | jstr : String → JVal
  | jarr : List JVal → JVal
  | jobj : List (String × JVal) → JVal
deriving Repr

instance : Inhabited JVal := ⟨JVal.jnull⟩

/-- Python `d.get(k, default)` on a dict value; on a non-dict the Python
raises (unreachable for the inputs any claim uses). -/
def jget (o : JVal) (k : String) (d : JVal) : JVal :=
  match o with
  | .jobj fs => (fs.lookup k).getD d
  | _ => d

/-- Python truthiness of a JSON value (`if x:`). -/
def jFalsy : JVal → Bool
  | .jnull => true
  | .jbool b => !b
  | .jnum n => n == 0
  | .jstr s => s == ""
  | .jarr xs => xs.isEmpty
  | .jobj fs => fs.isEmpty

/-- The single-quote character used by Python `repr` around strings. -/
def pyQuote : String := String.singleton (Char.ofNat 39)

mutual
/-- Python `repr` of a value (string escaping not modelled). -/
def pyRepr : JVal → String
  | .jnull => "None"
  | .jbool true => "True"
  | .jbool false => "False"
  | .jnum n => toString n
  | .jstr s => pyQuote ++ s ++ pyQuote
  | .jarr xs => "[" ++ pyReprList xs ++ "]"
  | .jobj fs => "\x7b" ++ pyReprFields fs ++ "\x7d"

/-- Comma-space-joined `repr`s of list elements. -/
def pyReprList : List JVal → String
  | [] => ""
  | [x] => pyRepr x
  | x :: xs => pyRepr x ++ ", " ++ pyReprList xs

/-- Comma-space-joined `repr`s of dict entries. -/
def pyReprFields : List (String × JVal) → String
  | [] => ""
  | [kv] => pyQuote ++ kv.1 ++ pyQuote ++ ": " ++ pyRepr kv.2
  | kv :: kvs => pyQuote ++ kv.1 ++ pyQuote ++ ": " ++ pyRepr kv.2 ++ ", " ++ pyReprFields kvs
end

/-- Python `str(x)`: identity on strings, `repr` otherwise
(`str(None) = "None"`). -/
def pyStr (v : JVal) : String :=
  match v with
  | .jstr s => s
  | v => pyRepr v

/-- `o.get(k, d)` where the caller then uses the result as a string; a
non-string value would make the Python comparison/join misbehave or
raise, which no claim exercises, so it is collapsed to `""`. -/
def jgetStrD (o : JVal) (k : String) (d : String) : String :=
  match jget o k (.jstr d) with
  | .jstr s => s
  | _ => ""

/-- Python `len` on a list value (non-list raises; unreachable here). -/
def jlen : JVal → Nat
  | .jarr xs => xs.length
  | _ => 0

/-- `", ".join(elem.get(field, "") for elem in l)` for a list value. -/
def joinField (l : JVal) (field : String) : String :=
  match l with
  | .jarr xs => ", ".intercalate (xs.map (fun x => jgetStrD x field ""))
  | _ => ""

/-- `"".join(t.get("plain_text", "") for t in l)` for a list value. -/
def joinPlainText (l : JVal) : String :=
  match l with
  | .jarr xs => String.join (xs.map (fun t => jgetStrD t "plain_text" ""))
  | _ => ""

/-- `flatten_property` (export_bundles.py lines 67-129): flatten one
typed Notion property value to a string for CSV export. -/
def flatten_property (prop : JVal) : String :=
  let prop_type := jgetStrD prop "type" ""
  if prop_type == "title" then
    joinPlainText (jget prop "title" (.jarr []))
  else if prop_type == "rich_text" then
    joinPlainText (jget prop "rich_text" (.jarr []))
  else if prop_type == "number" then
    let val := jget prop "number" .jnull
    match val with
    | .jnull => ""
    | v => pyStr v
  else if prop_type == "select" then
    let sel := jget prop "select" .jnull
    if jFalsy sel then "" else jgetStrD sel "name" ""
  else if prop_type == "multi_select" then
    joinField (jget prop "multi_select" (.jarr [])) "name"
  else if prop_type == "date" then
    let d := jget prop "date" .jnull
    if jFalsy d then ""
    else
      let start := jget d "start" (.jstr "")
      let stop := jget d "end" (.jstr "")
      if jFalsy stop then pyStr start
      else pyStr start ++ " - " ++ pyStr stop
  else if prop_type == "checkbox" then
    pyStr (jget prop "checkbox" (.jbool false))
  else if prop_type == "url" then
    let v := jget prop "url" (.jstr "")
    if jFalsy v then "" else pyStr v
  else if prop_type == "email" then
    let v := jget prop "email" (.jstr "")
    if jFalsy v then "" else pyStr v
  else if prop_type == "phone_number" then
    let v := jget prop "phone_number" (.jstr "")
    if jFalsy v then "" else pyStr v
  else if prop_type == "status" then
    let s := jget prop "status" .jnull
    if jFalsy s then "" else jgetStrD s "name" ""
  else if prop_type == "relation" then
    joinField (jget prop "relation" (.jarr [])) "id"
  else if prop_type == "formula" then
    let f := jget prop "formula" (.jobj [])
    let f_type := jgetStrD f "type" ""
    pyStr (jget f f_type (.jstr ""))
  else if prop_type == "rollup" then
    let r := jget prop "rollup" (.jobj [])
    let r_type := jgetStrD r "type" ""
    if r_type == "array" then
      toString (jlen (jget r "array" (.jarr [])))
    else
      pyStr (jget r r_type (.jstr ""))
  else if prop_type == "created_time" then
    jgetStrD prop "created_time" ""
  else if prop_type == "last_edited_time" then
    jgetStrD prop "last_edited_time" ""
  else if prop_type == "created_by" then
    jgetStrD (jget prop "created_by" (.jobj [])) "name" ""
  else if prop_type == "last_edited_by" then
    jgetStrD (jget prop "last_edited_by" (.jobj [])) "name" ""
  else if prop_type == "people" then
    joinField (jget prop "people" (.jarr [])) "name"
  else if prop_type == "files" then
    match jget prop "files" (.jarr []) with
    | .jarr xs =>
      ", ".intercalate (xs.map (fun f =>
        let ext := jgetStrD (jget f "external" (.jobj [])) "url" ""
        if ext == "" then jgetStrD (jget f "file" (.jobj [])) "url" "" else ext))
    | _ => ""
  else
    pyStr prop

/-!
Python strings are sequences of code points; they are modelled as
`List Char` (Lean's `String` builtins work on byte positions and do not
evaluate in the kernel, so the Python string operations the resolver
uses are spelled out over `List Char` here).
-/

/-- Python `s.split(sep)` for a single-character separator (the code
only splits on `"?"`, `"/"` and `"-"`).  Always returns at least one
piece. -/
def splitOnChar (sep : Char) : List Char → List (List Char)
  | [] => [[]]
  | c :: rest =>
    let r := splitOnChar sep rest
    if c == sep then [] :: r
    else
      match r with
      | [] => [[c]]
      | h :: t => (c :: h) :: t

/-- Python `need in hay` substring containment. -/
def containsSeq (hay need : List Char) : Bool :=
  match hay with
  | [] => need.isEmpty
  | _ :: rest => need.isPrefixOf hay || containsSeq rest need

/-- The candidate identifier a service-domain URL yields: strip the
query string, take the final path segment, take the substring after the
last hyphen (export_bundles.py lines 56-57). -/
def rawIdOf (url : List Char) : List Char :=
  let path := (splitOnChar '?' url).headD []
  (splitOnChar '-' ((splitOnChar '/' path).getLastD [])).getLastD []

/-- `extract_notion_id` (export_bundles.py lines 49-64): extract a
database ID from a Notion URL or pass through a raw ID; `none` models
the Python `None` returned for `TODO:` placeholders.
`url_or_id.replace("-", "")` is removal of every hyphen. -/
def extract_notion_id (url_or_id : String) : Option String :=
  let cs := url_or_id.data
  if ("TODO:".data).isPrefixOf cs then none
  else
    let fromUrl : Option String :=
      if containsSeq cs ("notion.so".data) then
        let raw_id := rawIdOf cs
        if raw_id.length == 32 then some (String.mk raw_id) else none
      else none
    match fromUrl with
    | some r => some r
    | none =>
      let clean := cs.filter (fun c => c != '-')
      if clean.length == 32 then some (String.mk clean) else some url_or_id

/-- Python string `<` comparison: lexicographic by code point. -/
def lexLt : List Char → List Char → Bool
  | [], [] => false
  | [], _ :: _ => true
  | _ :: _, [] => false
  | a :: as, b :: bs => if a == b then lexLt as bs else decide (a < b)

/-- `a <= b` on Python strings. -/
def strLe (a b : String) : Bool := !(lexLt b.data a.data)

/-- Insert into a sorted list of strings (stable, ascending). -/
def insertSorted (x : String) : List String → List String
  | [] => [x]
  | y :: ys => if strLe x y then x :: y :: ys else y :: insertSorted x ys

/-- Python `sorted` on strings: ascending lexicographic order by code
point.  (Insertion sort; `sorted` is a comparison sort, and on strings
any two sorts agree, equal keys being identical.) -/
def sortStrings : List String → List String
  | [] => []
  | x :: xs => insertSorted x (sortStrings xs)

/-- One fetched Notion page (record): the fields the exporter reads —
`page.get("id", "")`, `page.get("last_edited_time", "")` and
`page.get("properties", {})`. -/
structure NPage where
  id : String
  last_edited_time : String
  properties : List (String × JVal)
deriving Repr

instance : Inhabited NPage := ⟨⟨"", "", []⟩⟩

/-- One response of `notion.databases.query`: the fields the fetcher
reads — `results`, `has_more`, `next_cursor`. -/
structure QueryResponse where
  results : List NPage
  has_more : Bool
  next_cursor : Option String
deriving Repr

/-- The keyword arguments of one `notion.databases.query` call
(lines 138-140): `start_cursor` is `none` when the key is absent. -/
structure QueryRequest where
  database_id : String
  page_size : Nat
  start_cursor : Option String
deriving Repr, DecidableEq

/-- `if start_cursor:` (line 139) — the cursor is put into the request
only when truthy; `None` and `""` are falsy in Python. -/
def normCursor : Option String → Option String
  | none => none
  | some s => if s == "" then none else some s

/-- `query_all_pages` (lines 132-149): query all pages of a database,
following the cursor until a response has `has_more` false.  The remote
is modelled by the list of responses it returns, one per issued
request, in order; the result pairs the requests issued with the
records accumulated.  (If the response list runs out while the loop
still wants a page the remote never answers and the loop blocks; the
theorems only concern runs that reach a `has_more = false` response.) -/
def query_all_pages (database_id : String) (start_cursor : Option String) :
    List QueryResponse → List QueryRequest × List NPage
  | [] => ([], [])
  | r :: rest =>
    let req : QueryRequest := ⟨database_id, 100, normCursor start_cursor⟩
    if r.has_more then
      let (reqs, pages) := query_all_pages database_id r.next_cursor rest
      (req :: reqs, r.results ++ pages)
    else
      ([req], r.results)

/-- One item of the manifest `items` list.  `columns` is an `Option`
because the zero-record item (line 170) omits the `"columns"` key while
the normal item (lines 204-209) has it. -/
structure ManifestItem where
  db_key : String
  output : String
  row_count : Nat
  columns : Option Nat
deriving Repr, DecidableEq

/-- One entry of a bundle's `databases` list: `db_config["key"]` and
`db_config.get("notion_url", "")`. -/
structure DbConfig where
  key : String
  notion_url : String
deriving Repr

/-- The two synthetic metadata columns appended at line 191. -/
def syntheticColumns : List String := ["_notion_id", "_last_edited"]

/-- The value the row dict holds for column `c` after lines 180-188:
the two metadata assignments overwrite any same-named property (dict
update); every other column gets the flattened property, or `""` when
the record lacks that property. -/
def cellValue (page : NPage) (c : String) : String :=
  if c == "_notion_id" then page.id
  else if c == "_last_edited" then page.last_edited_time
  else
    match page.properties.lookup c with
    | some v => flatten_property v
    | none => ""

/-- One CSV data row as the `DictWriter` emits it: the cell of each
column of `all_columns`, in that order. -/
def rowOf (all_columns : List String) (page : NPage) : List (String × String) :=
  all_columns.map (fun c => (c, cellValue page c))

/-- The observable outcome of `export_database` for one database. -/
structure ExportResult where
  /-- The returned manifest item; `none` models the Python `None`
  returned for skipped placeholders (line 160). -/
  item : Option ManifestItem
  /-- `all_columns`, the CSV header (line 191); `[]` when no rows were
  built. -/
  header : List String
  /-- The CSV data rows; built in both modes (lines 177-189). -/
  rows : List (List (String × String))
  /-- Path of the CSV file written; `none` in dry-run mode and when no
  file is written (placeholder skip, zero records). -/
  csvWrite : Option String
  /-- The queries issued against the remote. -/
  queries : List QueryRequest
deriving Repr

/-- `export_database` (lines 152-209): export a single database —
resolve the reference, fetch all pages, build the fixed column set from
the first page, flatten every page, and (in real mode) write the CSV. -/
def export_database (db : DbConfig) (responses : List QueryResponse)
    (output_dir : String) (dry_run : Bool) : ExportResult :=
  match extract_notion_id db.notion_url with
  | none => ⟨none, [], [], none, []⟩
  | some db_id =>
    if db_id == "" then ⟨none, [], [], none, []⟩   -- `if not db_id:` — "" is falsy too
    else
      let fetched := query_all_pages db_id none responses
      match fetched.2 with
      | [] =>
        ⟨some ⟨db.key, "data/" ++ db.key ++ ".csv", 0, none⟩, [], [], none, fetched.1⟩
      | first :: _ =>
        let columns := sortStrings (first.properties.map Prod.fst)
        let all_columns := columns ++ syntheticColumns
        let rows := fetched.2.map (rowOf all_columns)
        { item := some ⟨db.key, "data/" ++ db.key ++ ".csv", rows.length,
                        some all_columns.length⟩,
          header := all_columns,
          rows := rows,
          csvWrite := if dry_run then none
                      else some (output_dir ++ "/data/" ++ db.key ++ ".csv"),
          queries := fetched.1 }

/-- The observable outcome of one run of `main`'s export loop and
manifest construction. -/
structure RunResult where
  manifest_items : List ManifestItem
  /-- `totals.databases` (line 265). -/
  totals_databases : Nat
  /-- `totals.total_rows` (line 266). -/
  totals_total_rows : Nat
  /-- Paths of the CSV files written. -/
  csvWrites : List String
  /-- Whether the manifest file was written (lines 276-279; dry-run
  prints it instead, lines 272-274). -/
  manifestWritten : Bool
  /-- Directories created (`mkdir(parents=True, exist_ok=True)` at
  lines 197 and 276; both sit in real-mode branches). -/
  dirsCreated : List String
deriving Repr

/-- The per-bundle portion of `main` (lines 244-280): run
`export_database` over the bundle's databases in order, keep the
non-`None` results as manifest items, compute the totals block, and
write (or in dry-run mode print) the manifest.  Each database is paired
with the response sequence the remote returns for its queries. -/
def run_bundle (dbs : List (DbConfig × List QueryResponse))
    (output_dir : String) (dry_run : Bool) : RunResult :=
  let results := dbs.map (fun p => export_database p.1 p.2 output_dir dry_run)
  let manifest_items := results.filterMap (·.item)
  { manifest_items := manifest_items,
    totals_databases := manifest_items.length,
    totals_total_rows := (manifest_items.map (·.row_count)).sum,
    csvWrites := results.filterMap (·.csvWrite),
    manifestWritten := !dry_run,
    dirsCreated :=
      (results.filterMap (fun r => r.csvWrite.map (fun _ => output_dir ++ "/data")))
        ++ (if dry_run then [] else [output_dir]) }

/-- A title property carrying one plain-text run. -/
def titleProp (s : String) : JVal :=
  .jobj [("type", .jstr "title"),
         ("title", .jarr [.jobj [("plain_text", .jstr s)]])]

/-- A select property with a selected option. -/
def selectProp (s : String) : JVal :=
  .jobj [("type", .jstr "select"), ("select", .jobj [("name", .jstr s)])]

/-- A sample fetched record with `Name` and `Status` properties. -/
def samplePage (i name status : String) : NPage :=
  ⟨i, "2024-01-01T00:00:00+00:00",
   [("Name", titleProp name), ("Status", selectProp status)]⟩

/-- A database config with an already-canonical identifier. -/
def sampleDb : DbConfig := ⟨"services", "0123456789abcdef0123456789abcdef"⟩

/-- A database config whose reference is still a placeholder. -/
def placeholderDb : DbConfig := ⟨"intake", "TODO:add-url"⟩

/-- The remote answers `sampleDb`'s single query with three records. -/
def sampleResponses : List QueryResponse :=
  [⟨[samplePage "p1" "Alpha" "Live",
     samplePage "p2" "Beta" "Dev",
     samplePage "p3" "Gamma" "Live"], false, none⟩]

/-- A bundle of one placeholder database and one three-record database. -/
def sampleBundle : List (DbConfig × List QueryResponse) :=
  [(placeholderDb, []), (sampleDb, sampleResponses)]

example :
    (run_bundle sampleBundle "packages/core" false).totals_databases = 1 := by decide
example :
    (run_bundle sampleBundle "packages/core" false).totals_total_rows = 3 := by decide
example :
    (export_database sampleDb sampleResponses "packages/core" false).header =
    ["Name", "Status", "_notion_id", "_last_edited"] := by decide

example : extract_notion_id "TODO:fill-me-in" = none := by decide
example :
    extract_notion_id
      "https://www.notion.so/ws/My-DB-0123456789abcdef0123456789abcdef?v=1" =
    some "0123456789abcdef0123456789abcdef" := by decide
example :
    extract_notion_id "01234567-89ab-cdef-0123-456789abcdef" =
    some "0123456789abcdef0123456789abcdef" := by decide
example : extract_notion_id "short" = some "short" := by decide
example :
    flatten_property
      (.jobj [("type", .jstr "multi_select"),
              ("multi_select", .jarr [.jobj [("name", .jstr "A")],
                                      .jobj [("name", .jstr "B")]])]) =
    "A, B" := by decide
example :
    flatten_property
      (.jobj [("type", .jstr "formula"),
              ("formula", .jobj [("type", .jstr "string"),
                                 ("string", .jnull)])]) = "None" := by decide

/-- The reference used to refute claim C5 as stated: it contains the
web domain marker and its final path segment is 32 characters, but it
also begins with the placeholder marker, which the resolver checks
first. -/
def c5Ref : String := "TODO:notion.so/aaaaaaaaaaaaaaaaaaaaaaaaaaaaaaaa"

/-- Claim C5 as stated is false: this reference contains "notion.so"
and its query-stripped final path segment after the last hyphen is
exactly 32 characters, yet the resolver returns the not-resolvable
signal instead of that substring, because the placeholder check runs
first. -/
theorem C5_counterexample :
    containsSeq c5Ref.data ("notion.so".data) = true ∧
    (rawIdOf c5Ref.data).length = 32 ∧
    extract_notion_id c5Ref ≠ some (String.mk (rawIdOf c5Ref.data)) := by
  decide

/-- Claim C5 (amended): for every reference that does not begin with
the placeholder marker and contains the web domain marker, if the
substring obtained by stripping the query string, taking the final path
segment and taking the part after the last hyphen is exactly 32
characters long, the resolver returns exactly that substring. -/
theorem C5_url_extraction (s : String)
    (h1 : ("TODO:".data).isPrefixOf s.data = false)
    (h2 : containsSeq s.data ("notion.so".data) = true)
    (h3 : (rawIdOf s.data).length = 32) :
    extract_notion_id s = some (String.mk (rawIdOf s.data)) := by
  unfold extract_notion_id
  simp [h1, h2, h3]

/-- `C5_url_extraction` holds at a concrete Notion URL. -/
theorem C5_url_extraction_witness :
    extract_notion_id
      "https://www.notion.so/ws/My-DB-0123456789abcdef0123456789abcdef?v=1" =
    some (String.mk (rawIdOf
      ("https://www.notion.so/ws/My-DB-0123456789abcdef0123456789abcdef?v=1").data)) :=
  C5_url_extraction _ (by decide) (by decide) (by decide)

/-- Claim C6: for every reference that does not begin with the
placeholder marker and does not contain the web domain marker, the
resolver returns the hyphen-stripped reference when that is exactly 32
characters, and the reference unchanged otherwise. -/
theorem C6_raw_id_passthrough (s : String)
    (h1 : ("TODO:".data).isPrefixOf s.data = false)
    (h2 : containsSeq s.data ("notion.so".data) = false) :
    ((s.data.filter (fun c => c != '-')).length = 32 →
      extract_notion_id s = some (String.mk (s.data.filter (fun c => c != '-')))) ∧
    ((s.data.filter (fun c => c != '-')).length ≠ 32 →
      extract_notion_id s = some s) := by
  unfold extract_notion_id
  refine ⟨fun h3 => ?_, fun h3 => ?_⟩ <;> simp [h1, h2, h3]

/-- `C6_raw_id_passthrough` holds at a concrete dashed UUID and at a
concrete malformed reference. -/
theorem C6_raw_id_passthrough_witness :
    extract_notion_id "01234567-89ab-cdef-0123-456789abcdef" =
      some (String.mk
        (("01234567-89ab-cdef-0123-456789abcdef").data.filter (fun c => c != '-'))) ∧
    extract_notion_id "not-a-real-id" = some "not-a-real-id" :=
  ⟨(C6_raw_id_passthrough _ (by decide) (by decide)).1 (by decide),
   (C6_raw_id_passthrough _ (by decide) (by decide)).2 (by decide)⟩

/-- Claim C2: for every database whose reference begins with the
placeholder marker, the resolver returns the not-resolvable signal, the
exporter issues no query and returns no manifest item, and the run's
manifest item list is unaffected by that database. -/
theorem C2_placeholder_skip (db : DbConfig) (responses : List QueryResponse)
    (output_dir : String) (dry_run : Bool)
    (rest : List (DbConfig × List QueryResponse))
    (h : ("TODO:".data).isPrefixOf db.notion_url.data = true) :
    extract_notion_id db.notion_url = none ∧
    (export_database db responses output_dir dry_run).queries = [] ∧
    (export_database db responses output_dir dry_run).item = none ∧
    (run_bundle ((db, responses) :: rest) output_dir dry_run).manifest_items =
      (run_bundle rest output_dir dry_run).manifest_items := by
  have hx : extract_notion_id db.notion_url = none := by
    unfold extract_notion_id
    simp [h]
  refine ⟨hx, ?_, ?_, ?_⟩
  · simp [export_database, hx]
  · simp [export_database, hx]
  · simp [run_bundle, List.filterMap_cons, export_database, hx]

/-- `C2_placeholder_skip` holds for the concrete placeholder database. -/
theorem C2_placeholder_skip_witness :
    extract_notion_id placeholderDb.notion_url = none ∧
    (export_database placeholderDb [] "packages/core" false).queries = [] ∧
    (export_database placeholderDb [] "packages/core" false).item = none ∧
    (run_bundle ((placeholderDb, []) :: [(sampleDb, sampleResponses)])
        "packages/core" false).manifest_items =
      (run_bundle [(sampleDb, sampleResponses)] "packages/core" false).manifest_items :=
  C2_placeholder_skip placeholderDb [] "packages/core" false
    [(sampleDb, sampleResponses)] (by decide)

/-- The request sequence the fetch loop sends while every answered
response still signals more data: the first request carries the
(normalised) initial cursor, each later request the cursor of the
response before it. -/
def chainRequests (dbId : String) : Option String → List QueryResponse → List QueryRequest
  | c, [] => [⟨dbId, 100, normCursor c⟩]
  | c, r :: rest => ⟨dbId, 100, normCursor c⟩ :: chainRequests dbId r.next_cursor rest

theorem chainRequests_length (dbId : String) (c : Option String)
    (rs : List QueryResponse) :
    (chainRequests dbId c rs).length = rs.length + 1 := by
  induction rs generalizing c with
  | nil => rfl
  | cons r rest ih => simp [chainRequests, ih]

theorem chainRequests_mem (dbId : String) (c : Option String)
    (rs : List QueryResponse) :
    ∀ q ∈ chainRequests dbId c rs, q.page_size = 100 ∧ q.database_id = dbId := by
  induction rs generalizing c with
  | nil => intro q hq; simp [chainRequests] at hq; subst hq; exact ⟨rfl, rfl⟩
  | cons r rest ih =>
    intro q hq
    simp only [chainRequests, List.mem_cons] at hq
    rcases hq with h | h
    · subst h; exact ⟨rfl, rfl⟩
    · exact ih r.next_cursor q h

theorem chainRequests_head (dbId : String) (c : Option String)
    (rs : List QueryResponse) :
    (chainRequests dbId c rs)[0]? = some ⟨dbId, 100, normCursor c⟩ := by
  cases rs <;> simp [chainRequests]

theorem chainRequests_get (dbId : String) (c : Option String)
    (rs : List QueryResponse) :
    ∀ i (h : i < rs.length),
      (chainRequests dbId c rs)[i + 1]? =
        some ⟨dbId, 100, normCursor (rs.get ⟨i, h⟩).next_cursor⟩ := by
  induction rs generalizing c with
  | nil => intro i h; exact absurd h (Nat.not_lt_zero i)
  | cons r rest ih =>
    intro i h
    cases i with
    | zero => simpa [chainRequests] using chainRequests_head dbId r.next_cursor rest
    | succ j =>
      have hj : j < rest.length := Nat.lt_of_succ_lt_succ h
      simpa [chainRequests] using ih r.next_cursor j hj

/-- The fetch loop over a response sequence whose first `has_more = false`
response is `last`: it sends exactly the chained requests and
accumulates the pages of every response up to and including `last`,
leaving everything after `last` unqueried. -/
theorem query_all_pages_split (dbId : String) (c : Option String)
    (pre : List QueryResponse) (last : QueryResponse) (post : List QueryResponse)
    (hpre : ∀ r ∈ pre, r.has_more = true) (hlast : last.has_more = false) :
    query_all_pages dbId c (pre ++ last :: post) =
      (chainRequests dbId c pre, (pre.map (·.results)).flatten ++ last.results) := by
  induction pre generalizing c with
  | nil => simp [query_all_pages, hlast, chainRequests]
  | cons r rest ih =>
    have hr : r.has_more = true := hpre r (List.mem_cons_self r rest)
    have hrest : ∀ x ∈ rest, x.has_more = true :=
      fun x hx => hpre x (List.mem_cons_of_mem r hx)
    simp [query_all_pages, hr, ih r.next_cursor hrest, chainRequests]

/-- Claim C4: for every response sequence whose first no-more-data
response is `last` (every earlier response signals more data and
carries a continuation cursor), the fetcher issues one query per
response up to and including `last` — each with page size 100, the
first without a cursor and each later one with the previous response's
cursor — stops there, and returns the concatenation of all those
responses' records in the order received. -/
theorem C4_paginated_fetch (dbId : String)
    (pre : List QueryResponse) (last : QueryResponse) (post : List QueryResponse)
    (hpre : ∀ r ∈ pre, r.has_more = true)
    (hlast : last.has_more = false)
    (hcur : ∀ r ∈ pre, ∃ s, r.next_cursor = some s ∧ s ≠ "") :
    (query_all_pages dbId none (pre ++ last :: post)).1.length = pre.length + 1 ∧
    (∀ q ∈ (query_all_pages dbId none (pre ++ last :: post)).1,
      q.page_size = 100 ∧ q.database_id = dbId) ∧
    (query_all_pages dbId none (pre ++ last :: post)).1[0]? =
      some ⟨dbId, 100, none⟩ ∧
    (∀ i (h : i < pre.length),
      (query_all_pages dbId none (pre ++ last :: post)).1[i + 1]? =
        some ⟨dbId, 100, (pre.get ⟨i, h⟩).next_cursor⟩) ∧
    (query_all_pages dbId none (pre ++ last :: post)).2 =
      (pre.map (·.results)).flatten ++ last.results := by
  have hsplit := query_all_pages_split dbId none pre last post hpre hlast
  rw [hsplit]
  refine ⟨chainRequests_length dbId none pre,
          chainRequests_mem dbId none pre,
          chainRequests_head dbId none pre,
          fun i h => ?_, rfl⟩
  have hget := chainRequests_get dbId none pre i h
  obtain ⟨s, hs, hne⟩ := hcur (pre.get ⟨i, h⟩) (pre.get_mem i h)
  rw [hget, hs]
  simp [normCursor, hne]

/-- One hundred identical records filling the first page. -/
def c4FullPage : QueryResponse :=
  ⟨List.replicate 100 (samplePage "p" "A" "Live"), true, some "cursor-1"⟩

/-- Fifty records on the second, final page. -/
def c4LastPage : QueryResponse :=
  ⟨List.replicate 50 (samplePage "q" "B" "Dev"), false, none⟩

set_option maxRecDepth 4000 in
/-- `C4_paginated_fetch` at the spec's example: 150 records split
across two pages give exactly 2 queries and all 150 records back, the
second query carrying the first response's cursor. -/
theorem C4_paginated_fetch_witness :
    (query_all_pages "db1" none ([c4FullPage] ++ c4LastPage :: [])).1.length = 2 ∧
    (query_all_pages "db1" none ([c4FullPage] ++ c4LastPage :: [])).1[0]? =
      some ⟨"db1", 100, none⟩ ∧
    (query_all_pages "db1" none ([c4FullPage] ++ c4LastPage :: [])).1[1]? =
      some ⟨"db1", 100, some "cursor-1"⟩ ∧
    (query_all_pages "db1" none ([c4FullPage] ++ c4LastPage :: [])).2 =
      ([c4FullPage].map (·.results)).flatten ++ c4LastPage.results ∧
    (query_all_pages "db1" none ([c4FullPage] ++ c4LastPage :: [])).2.length = 150 := by
  obtain ⟨h1, _, h3, h4, h5⟩ := C4_paginated_fetch "db1" [c4FullPage] c4LastPage []
    (by intro r hr; simp only [List.mem_singleton] at hr; subst hr; rfl)
    (by rfl)
    (by intro r hr; simp only [List.mem_singleton] at hr; subst hr
        exact ⟨"cursor-1", rfl, by decide⟩)
  refine ⟨h1, h3, ?_, h5, ?_⟩
  · have := h4 0 (by decide)
    simpa [c4FullPage] using this
  · rw [h5]; decide

/-- Claim C7: for every database whose fetch returns zero records, the
exporter returns a manifest item with row count 0 and writes no CSV
file, whatever the mode. -/
theorem C7_zero_records (db : DbConfig) (responses : List QueryResponse)
    (output_dir : String) (dry_run : Bool) (db_id : String)
    (hid : extract_notion_id db.notion_url = some db_id)
    (hne : db_id ≠ "")
    (hpages : (query_all_pages db_id none responses).2 = []) :
    (export_database db responses output_dir dry_run).item =
      some ⟨db.key, "data/" ++ db.key ++ ".csv", 0, none⟩ ∧
    (export_database db responses output_dir dry_run).csvWrite = none := by
  unfold export_database
  rw [hid]
  simp [hne, hpages]

/-- `C7_zero_records` at a concrete empty database, in both modes. -/
theorem C7_zero_records_witness :
    (export_database sampleDb [⟨[], false, none⟩] "packages/core" false).item =
      some ⟨sampleDb.key, "data/" ++ sampleDb.key ++ ".csv", 0, none⟩ ∧
    (export_database sampleDb [⟨[], false, none⟩] "packages/core" false).csvWrite = none ∧
    (export_database sampleDb [⟨[], false, none⟩] "packages/core" true).csvWrite = none := by
  have hf := C7_zero_records sampleDb [⟨[], false, none⟩] "packages/core" false
    "0123456789abcdef0123456789abcdef" (by decide) (by decide) rfl
  have ht := C7_zero_records sampleDb [⟨[], false, none⟩] "packages/core" true
    "0123456789abcdef0123456789abcdef" (by decide) (by decide) rfl
  exact ⟨hf.1, hf.2, ht.2⟩

/-- The zero-record database used to refute claim C3 as stated. -/
def c3ZeroDb : DbConfig := ⟨"ledger", "fedcba9876543210fedcba9876543210"⟩

/-- Claim C3 as stated is false: a successfully exported database with
zero fetched records produces a manifest item that omits the column
count — the dict built at line 170 has only the key, the output path
and the row count. -/
theorem C3_counterexample :
    (export_database c3ZeroDb [⟨[], false, none⟩] "packages/core" false).item =
      some ⟨"ledger", "data/ledger.csv", 0, none⟩ := by decide

/-- Claim C3 (amended): every manifest item of a successfully exported
database carries the database key, the relative output path and the row
count; the column count is present exactly when at least one record was
fetched (the zero-record item omits it). -/
theorem C3_manifest_item_fields (db : DbConfig) (responses : List QueryResponse)
    (output_dir : String) (dry_run : Bool) (it : ManifestItem)
    (hit : (export_database db responses output_dir dry_run).item = some it) :
    it.db_key = db.key ∧
    it.output = "data/" ++ db.key ++ ".csv" ∧
    (it.columns.isSome ↔ it.row_count ≠ 0) := by
  unfold export_database at hit
  split at hit
  · simp at hit
  · split at hit
    · simp at hit
    · rename_i db_id heq hne
      rcases hq : (query_all_pages db_id none responses).2 with _ | ⟨first, rest⟩ <;>
        simp only [hq, Option.some.injEq] at hit <;> subst hit <;> simp

/-- `C3_manifest_item_fields` at the concrete three-record database. -/
theorem C3_manifest_item_fields_witness :
    (⟨"services", "data/services.csv", 3, some 4⟩ : ManifestItem).db_key = sampleDb.key ∧
    (⟨"services", "data/services.csv", 3, some 4⟩ : ManifestItem).output =
      "data/" ++ sampleDb.key ++ ".csv" ∧
    ((⟨"services", "data/services.csv", 3, some 4⟩ : ManifestItem).columns.isSome ↔
      (⟨"services", "data/services.csv", 3, some 4⟩ : ManifestItem).row_count ≠ 0) :=
  C3_manifest_item_fields sampleDb sampleResponses "packages/core" false _ (by decide)

theorem export_database_dry_no_write (db : DbConfig) (responses : List QueryResponse)
    (output_dir : String) :
    (export_database db responses output_dir true).csvWrite = none := by
  unfold export_database
  split
  · rfl
  · split
    · rfl
    · rename_i db_id heq hne
      rcases hq : (query_all_pages db_id none responses).2 with _ | ⟨first, rest⟩ <;>
        simp [hq]

/-- Claim C9: in dry-run mode, whatever the bundle content, no CSV file
is written, the manifest file is not written (it is printed instead),
and no directory is created. -/
theorem C9_dry_run_no_writes (dbs : List (DbConfig × List QueryResponse))
    (output_dir : String) :
    (run_bundle dbs output_dir true).csvWrites = [] ∧
    (run_bundle dbs output_dir true).manifestWritten = false ∧
    (run_bundle dbs output_dir true).dirsCreated = [] := by
  refine ⟨?_, rfl, ?_⟩
  · simp only [run_bundle, List.filterMap_eq_nil_iff, List.mem_map]
    rintro r ⟨p, _, rfl⟩
    exact export_database_dry_no_write p.1 p.2 output_dir
  · simp only [run_bundle, if_true, List.append_nil, List.filterMap_eq_nil_iff, List.mem_map]
    rintro r ⟨p, _, rfl⟩
    rw [export_database_dry_no_write p.1 p.2 output_dir]
    rfl

theorem mem_insertSorted (x y : String) (l : List String) :
    y ∈ insertSorted x l ↔ y = x ∨ y ∈ l := by
  induction l with
  | nil => simp [insertSorted]
  | cons z zs ih =>
    by_cases h : strLe x z = true
    · simp [insertSorted, h]
    · simp [insertSorted, h, ih]
      tauto

theorem mem_sortStrings (y : String) (l : List String) :
    y ∈ sortStrings l ↔ y ∈ l := by
  induction l with
  | nil => simp [sortStrings]
  | cons x xs ih => simp [sortStrings, mem_insertSorted, ih]

/-- The exporter's outcome on a database that resolves and fetches at
least one record: the header is the first record's sorted property keys
plus the synthetic columns, and the rows are every fetched record
flattened against that header. -/
theorem export_database_pos (db : DbConfig) (responses : List QueryResponse)
    (output_dir : String) (dry_run : Bool) (db_id : String)
    (first : NPage) (rest : List NPage)
    (hid : extract_notion_id db.notion_url = some db_id)
    (hne : db_id ≠ "")
    (hpages : (query_all_pages db_id none responses).2 = first :: rest) :
    (export_database db responses output_dir dry_run).header =
      sortStrings (first.properties.map Prod.fst) ++ syntheticColumns ∧
    (export_database db responses output_dir dry_run).rows =
      (first :: rest).map
        (rowOf (sortStrings (first.properties.map Prod.fst) ++ syntheticColumns)) := by
  unfold export_database
  rw [hid]
  simp [hne, hpages]

/-- Claim C1: whenever at least one record is fetched, the CSV header
is the first record's property keys sorted lexicographically followed
by the two synthetic columns as the final columns; every data row has
exactly that column list; a record lacking one of those columns gets
the empty string for it; and a property key present only in later
records is not a column. -/
theorem C1_fixed_column_set (db : DbConfig) (responses : List QueryResponse)
    (output_dir : String) (dry_run : Bool) (db_id : String)
    (first : NPage) (rest : List NPage)
    (hid : extract_notion_id db.notion_url = some db_id)
    (hne : db_id ≠ "")
    (hpages : (query_all_pages db_id none responses).2 = first :: rest) :
    (export_database db responses output_dir dry_run).header =
      sortStrings (first.properties.map Prod.fst) ++ syntheticColumns ∧
    (∀ row ∈ (export_database db responses output_dir dry_run).rows,
      row.map Prod.fst = (export_database db responses output_dir dry_run).header) ∧
    (∀ page ∈ first :: rest,
      rowOf (export_database db responses output_dir dry_run).header page ∈
          (export_database db responses output_dir dry_run).rows ∧
      ∀ c ∈ (export_database db responses output_dir dry_run).header,
        c ∉ syntheticColumns → page.properties.lookup c = none →
          (c, "") ∈ rowOf (export_database db responses output_dir dry_run).header page) ∧
    (∀ k, k ∉ first.properties.map Prod.fst → k ∉ syntheticColumns →
      k ∉ (export_database db responses output_dir dry_run).header) := by
  obtain ⟨hh, hr⟩ :=
    export_database_pos db responses output_dir dry_run db_id first rest hid hne hpages
  refine ⟨hh, ?_, ?_, ?_⟩
  · intro row hrow
    rw [hr] at hrow
    obtain ⟨page, _, rfl⟩ := List.mem_map.mp hrow
    rw [hh]
    have hcomp : (Prod.fst ∘ fun c => (c, cellValue page c)) = id := rfl
    simp [rowOf, List.map_map, hcomp]
  · intro page hpage
    constructor
    · rw [hr, hh]
      exact List.mem_map_of_mem _ hpage
    · intro c hc hcsyn hlook
      have hcell : cellValue page c = "" := by
        have h1 : (c == "_notion_id") = false := by
          simp [syntheticColumns] at hcsyn
          simp [hcsyn.1]
        have h2 : (c == "_last_edited") = false := by
          simp [syntheticColumns] at hcsyn
          simp [hcsyn.2]
        simp [cellValue, h1, h2, hlook]
      have : (c, cellValue page c) ∈ rowOf (export_database db responses output_dir dry_run).header page := by
        rw [hh] at hc ⊢
        exact List.mem_map_of_mem _ hc
      rwa [hcell] at this
  · intro k hk hksyn
    rw [hh]
    intro hmem
    rcases List.mem_append.mp hmem with h | h
    · exact hk ((mem_sortStrings k _).mp h)
    · exact hksyn h

/-- `C1_fixed_column_set` at the concrete three-record database, where
the second record lacks the `Status` column of the first. -/
theorem C1_fixed_column_set_witness :
    (export_database sampleDb
        [⟨[samplePage "p1" "Alpha" "Live",
           ⟨"p2", "2024-01-02T00:00:00+00:00", [("Name", titleProp "Beta")]⟩],
          false, none⟩] "packages/core" false).header =
      sortStrings ((samplePage "p1" "Alpha" "Live").properties.map Prod.fst) ++
        syntheticColumns ∧
    ("Status", "") ∈ rowOf
      (export_database sampleDb
        [⟨[samplePage "p1" "Alpha" "Live",
           ⟨"p2", "2024-01-02T00:00:00+00:00", [("Name", titleProp "Beta")]⟩],
          false, none⟩] "packages/core" false).header
      ⟨"p2", "2024-01-02T00:00:00+00:00", [("Name", titleProp "Beta")]⟩ := by
  obtain ⟨hh, _, hpages, _⟩ := C1_fixed_column_set sampleDb
    [⟨[samplePage "p1" "Alpha" "Live",
       ⟨"p2", "2024-01-02T00:00:00+00:00", [("Name", titleProp "Beta")]⟩],
      false, none⟩] "packages/core" false
    "0123456789abcdef0123456789abcdef"
    (samplePage "p1" "Alpha" "Live")
    [⟨"p2", "2024-01-02T00:00:00+00:00", [("Name", titleProp "Beta")]⟩]
    (by decide) (by decide) rfl
  refine ⟨hh, ?_⟩
  have h2 := hpages ⟨"p2", "2024-01-02T00:00:00+00:00", [("Name", titleProp "Beta")]⟩
    (by simp)
  exact h2.2 "Status" (by rw [hh]; decide) (by decide) rfl

theorem length_filterMap_eq_countP {α β : Type} (g : α → Option β) (l : List α) :
    (l.filterMap g).length = l.countP (fun a => (g a).isSome) := by
  induction l with
  | nil => rfl
  | cons x xs ih =>
    cases hx : g x <;> simp [List.filterMap_cons, hx, List.countP_cons, ih]

/-- Claim C8: in every run, `totals.databases` is the number of
manifest items — the databases whose export produced an item, skipped
placeholders being excluded — and `totals.total_rows` is the sum of
those items' row counts; on the concrete bundle of one placeholder
database and one three-record database the totals are 1 and 3. -/
theorem C8_totals (dbs : List (DbConfig × List QueryResponse))
    (output_dir : String) (dry_run : Bool) :
    (run_bundle dbs output_dir dry_run).totals_databases =
      (run_bundle dbs output_dir dry_run).manifest_items.length ∧
    (run_bundle dbs output_dir dry_run).totals_databases =
      dbs.countP (fun p => (export_database p.1 p.2 output_dir dry_run).item.isSome) ∧
    (run_bundle dbs output_dir dry_run).totals_total_rows =
      ((run_bundle dbs output_dir dry_run).manifest_items.map
        (fun it => it.row_count)).sum ∧
    (run_bundle sampleBundle "packages/core" false).totals_databases = 1 ∧
    (run_bundle sampleBundle "packages/core" false).totals_total_rows = 3 := by
  refine ⟨rfl, ?_, rfl, by decide, by decide⟩
  simp only [run_bundle]
  rw [length_filterMap_eq_countP, List.countP_map]
  rfl

/-- The formula property whose nested string value is the empty string,
with the tagged key present: it refutes the "empty string only when the
key is absent" half of claim C10. -/
def c10FormulaPayload : List (String × JVal) :=
  [("type", .jstr "string"), ("string", .jstr "")]

/-- A formula property wrapping `c10FormulaPayload`. -/
def c10EmptyFormula : JVal :=
  .jobj [("type", .jstr "formula"), ("formula", .jobj c10FormulaPayload)]

/-- Claim C10 as stated is false: this formula property flattens to the
empty string although its tagged key (`"string"`) is present — its
value is the empty string, and `str("")` is `""` just like the absent
default. -/
theorem C10_counterexample :
    flatten_property c10EmptyFormula = "" ∧
    (c10FormulaPayload.lookup "string").isSome = true := by decide

/-- Claim C10 (amended): a formula property, and a rollup property
whose result-type tag is not an array, whose nested value under its own
result-type tag is null flatten to "None" (the generic stringification
of null); when the tagged key is absent entirely they flatten to the
empty string (which also results from a present empty-string value). -/
theorem C10_null_tagged_value (props f : List (String × JVal)) (fty : String) :
    (props.lookup "type" = some (.jstr "formula") →
     props.lookup "formula" = some (.jobj f) →
     f.lookup "type" = some (.jstr fty) →
     ((f.lookup fty = some .jnull → flatten_property (.jobj props) = "None") ∧
      (f.lookup fty = none → flatten_property (.jobj props) = ""))) ∧
    (props.lookup "type" = some (.jstr "rollup") →
     props.lookup "rollup" = some (.jobj f) →
     f.lookup "type" = some (.jstr fty) →
     fty ≠ "array" →
     ((f.lookup fty = some .jnull → flatten_property (.jobj props) = "None") ∧
      (f.lookup fty = none → flatten_property (.jobj props) = ""))) := by
  constructor
  · intro h1 h2 h3
    constructor <;> intro h4 <;>
      simp [flatten_property, jgetStrD, jget, h1, h2, h3, h4, pyStr, pyRepr]
  · intro h1 h2 h3 harr
    constructor <;> intro h4 <;>
      simp [flatten_property, jgetStrD, jget, h1, h2, h3, h4, harr, pyStr, pyRepr]

/-- `C10_null_tagged_value` at concrete null-valued formula and rollup
properties, and at a formula whose tagged key is absent. -/
theorem C10_null_tagged_value_witness :
    flatten_property (.jobj [("type", .jstr "formula"),
      ("formula", .jobj [("type", .jstr "string"), ("string", .jnull)])]) = "None" ∧
    flatten_property (.jobj [("type", .jstr "rollup"),
      ("rollup", .jobj [("type", .jstr "number"), ("number", .jnull)])]) = "None" ∧
    flatten_property (.jobj [("type", .jstr "formula"),
      ("formula", .jobj [("type", .jstr "string")])]) = "" :=
  ⟨((C10_null_tagged_value
        [("type", .jstr "formula"),
         ("formula", .jobj [("type", .jstr "string"), ("string", .jnull)])]
        [("type", .jstr "string"), ("string", .jnull)] "string").1
      rfl rfl rfl).1 rfl,
   ((C10_null_tagged_value
        [("type", .jstr "rollup"),
         ("rollup", .jobj [("type", .jstr "number"), ("number", .jnull)])]
        [("type", .jstr "number"), ("number", .jnull)] "number").2
      rfl rfl rfl (by decide)).1 rfl,
   ((C10_null_tagged_value
        [("type", .jstr "formula"), ("formula", .jobj [("type", .jstr "string")])]
        [("type", .jstr "string")] "string").1
      rfl rfl rfl).2 rfl⟩
